import Mathlib

/-!
Verification of the safe-search frontend components.

The development shallowly embeds the two search-page implementations and the
metrics page of the repository:

* `src/frontend/src/components/SearchPage.jsx` (the primary search page),
* the `MetricsPage` component and the variant `SearchPage` component found in
  the unnamed source file.

React state updates become explicit state passing on `SearchState`; the
awaited external calls (the crypto utilities and the HTTP layer, which are
not part of the excerpt) are modelled by an environment `Env` recording the
outcome each awaited call produced in the run under consideration; a thrown
JavaScript error becomes a `JsError` value routed to the embedded catch
block.  Network activity is made observable as the list of calls issued
during the run.
-/

/-- Search metadata, the `meta` object of a service response
(`total_matches`, `returned_count`, `execution_time_ms`, `truncated`). -/
structure SearchMeta where
  total_matches : Nat
  returned_count : Nat
  execution_time_ms : Nat
  truncated : Bool
deriving DecidableEq, Repr

/-- A search result record is opaque to the client; the pages render it with
`JSON.stringify`, so a record is modelled by its rendered string. -/
abbrev SearchRecord := String

/-- An auditor identity, `{auditor_id, name, active_key_version}`. -/
structure Auditor where
  auditor_id : String
  name : String
  active_key_version : Nat
deriving DecidableEq, Repr

/-- The `{code}` object found under `error` in a structured service error
body; `code` is `none` when the field is absent (JavaScript `undefined`). -/
structure ErrorBody where
  code : Option String
deriving DecidableEq, Repr

/-- A thrown JavaScript error as the catch blocks observe it: its `message`
and, when present, the structured body `err.response.data.error`. -/
structure JsError where
  message : String
  responseError : Option ErrorBody
deriving DecidableEq, Repr

/-- A successful service response as the pages read it: the possibly absent
`results` array and the possibly absent `meta` object. -/
structure ApiSuccess where
  dataResults : Option (List SearchRecord)
  meta : Option SearchMeta
deriving DecidableEq, Repr

/-- Outcomes of the awaited external calls during one run of `handleSearch`:
the hash call (`sha256Hex`), the signing call (`signHashHex`) and the single
service call the run performs.  Each `Except` value is the result the
corresponding call returned, or the error it threw, in that run. -/
structure Env where
  hashResult : Except JsError String
  signResult : Except JsError String
  postResult : Except JsError ApiSuccess
deriving Repr

/-- The component state touched by `handleSearch`: `results`, `meta`,
`logs` and `loading`. -/
structure SearchState where
  results : List SearchRecord
  meta : Option SearchMeta
  logs : List String
  loading : Bool
deriving DecidableEq, Repr

/-- The initial component state (`useState` defaults of both search pages). -/
def initialSearchState : SearchState :=
  { results := [], meta := none, logs := ["Awaiting search query..."], loading := false }

/-- An HTTP call issued through `api.post`: the URL and the request body, a
JavaScript object modelled as its ordered field list. -/
structure ApiCall where
  url : String
  body : List (String × String)
deriving DecidableEq, Repr

/-- Result of one run of the primary page's `handleSearch`: the final
component state and the HTTP calls issued. -/
structure RunResult where
  state : SearchState
  calls : List ApiCall
deriving DecidableEq, Repr

/-- Modelled from the spec: `normalizeKeyword` lives in
`src/frontend/src/utils/crypto`, which is not part of the excerpt.  The spec
fixes only that normalization is a deterministic string function such as
case/whitespace folding. -/
def normalizeKeyword (s : String) : String :=
  s.trim.toLower

/-- The log line the shared catch block of `SearchPage.jsx` appends: the code
of a structured error body, or a generic message.  A structured body whose
`code` field is absent prints as the JavaScript string `undefined`. -/
def errorLog (e : JsError) : String :=
  match e.responseError with
  | some eb => "Error: " ++ eb.code.getD "undefined"
  | none => "Unknown error occurred"

/-- The external request payload built at lines 79-83 of `SearchPage.jsx`. -/
def externalPayload (aud : Auditor) (keywordHash signature : String) :
    List (String × String) :=
  [("auditor_id", aud.auditor_id), ("keyword_hash", keywordHash),
   ("signature", signature)]

/-- Embedding of `handleSearch` of `src/frontend/src/components/SearchPage.jsx`
(lines 19-109).  Props `role`, `auditor`, `privateKey` and the component
state values `field` and `query` are inputs; `st` is the state at the click;
`env` gives the outcomes of the awaited external calls. -/
def handleSearchMain (role : String) (auditor : Option Auditor)
    (privateKey : Option String) (field query : String)
    (st : SearchState) (env : Env) : RunResult :=
  if query = "" then { state := st, calls := [] }
  else
    let st0 : SearchState :=
      { loading := true, results := [], meta := none, logs := ["Preparing search..."] }
    if role = "internal" then
      let st1 := { st0 with logs := st0.logs ++ ["Generating HMAC trapdoor..."] }
      let payload : List (String × String) := [(field, query)]
      let st2 := { st1 with logs := st1.logs ++ ["Sending request to /api/search/internal/"] }
      let call : ApiCall := { url := "/api/search/internal/", body := payload }
      match env.postResult with
      | .error e =>
          let stF := { st2 with logs := st2.logs ++ [errorLog e], loading := false }
          { state := stF, calls := [call] }
      | .ok res =>
          let stF := { st2 with
                       results := res.dataResults.getD [],
                       meta := res.meta,
                       logs := st2.logs ++ ["Internal search complete ✔"],
                       loading := false }
          { state := stF, calls := [call] }
    else if role = "external" then
      match privateKey with
      | none =>
          let stF := { st0 with
                       logs := st0.logs ++ ["No auditor private key found"],
                       loading := false }
          { state := stF, calls := [] }
      | some _key =>
        match auditor with
        | none =>
            let stF := { st0 with
                         logs := st0.logs ++ ["No auditor identity found"],
                         loading := false }
            { state := stF, calls := [] }
        | some aud =>
          let st1 := { st0 with logs := st0.logs ++ ["Normalizing keyword..."] }
          let _normalized := normalizeKeyword query
          let st2 := { st1 with logs := st1.logs ++ ["Hashing keyword (SHA256)..."] }
          match env.hashResult with
          | .error e =>
              let stF := { st2 with logs := st2.logs ++ [errorLog e], loading := false }
              { state := stF, calls := [] }
          | .ok keywordHash =>
            let st3 := { st2 with logs := st2.logs ++ ["Signing hash with RSA private key..."] }
            match env.signResult with
            | .error e =>
                let stF := { st3 with logs := st3.logs ++ [errorLog e], loading := false }
                { state := stF, calls := [] }
            | .ok signature =>
              let st4 := { st3 with logs := st3.logs ++ ["Sending request to /api/search/external/"] }
              let call : ApiCall :=
                { url := "/api/search/external/", body := externalPayload aud keywordHash signature }
              match env.postResult with
              | .error e =>
                  let stF := { st4 with logs := st4.logs ++ [errorLog e], loading := false }
                  { state := stF, calls := [call] }
              | .ok res =>
                  let stF := { st4 with
                               results := res.dataResults.getD [],
                               meta := res.meta,
                               logs := st4.logs ++ ["Encrypted results received ✔"],
                               loading := false }
                  { state := stF, calls := [call] }
    else
      { state := { st0 with loading := false }, calls := [] }

/-- A service call issued by the variant search page: `internalSearch`
receives the already-built payload, `externalSearch` receives the raw query
and the private key and builds the request itself (in a service module that
is not part of the excerpt). -/
inductive ServiceCall where
  | internalSearch (payload : List (String × String))
  | externalSearch (query : String) (privateKey : String)
deriving DecidableEq, Repr

/-- Result of one run of the variant page's `handleSearch`. -/
structure VariantRunResult where
  state : SearchState
  calls : List ServiceCall
deriving DecidableEq, Repr

/-- Embedding of `handleSearch` of the variant `SearchPage` component in the
unnamed source file (lines 267-329 of that file).  The private key is read
from local storage, modelled as the `localKey` input; there is no auditor
prop.  The catch block logs the thrown error's message. -/
def handleSearchVariant (role : String) (localKey : Option String)
    (query : String) (st : SearchState) (env : Env) : VariantRunResult :=
  if query = "" then { state := st, calls := [] }
  else
    let st0 : SearchState :=
      { loading := true, results := [], meta := none, logs := ["Preparing search..."] }
    if role = "internal" then
      let payload : List (String × String) := [("keyword", query)]
      let st1 := { st0 with logs := st0.logs ++ ["Generating HMAC trapdoor..."] }
      let st2 := { st1 with logs := st1.logs ++ ["Sending to SSE engine..."] }
      let call := ServiceCall.internalSearch payload
      match env.postResult with
      | .error e =>
          let stF := { st2 with
                       logs := st2.logs ++ ["Error: " ++ e.message],
                       loading := false }
          { state := stF, calls := [call] }
      | .ok res =>
          let st3 := { st2 with logs := st2.logs ++ ["Decrypting records..."] }
          let stF := { st3 with
                       results := res.dataResults.getD [],
                       meta := res.meta,
                       logs := st3.logs ++ ["Internal search complete ✔"],
                       loading := false }
          { state := stF, calls := [call] }
    else if role = "external" then
      match localKey with
      | none =>
          let stF := { st0 with
                       logs := st0.logs ++ ["No auditor key found"],
                       loading := false }
          { state := stF, calls := [] }
      | some privateKey =>
        let st1 := { st0 with logs := st0.logs ++ ["Hashing keyword (SHA256)..."] }
        let st2 := { st1 with logs := st1.logs ++ ["Signing hash (RSA)..."] }
        let call := ServiceCall.externalSearch query privateKey
        match env.postResult with
        | .error e =>
            let stF := { st2 with
                         logs := st2.logs ++ ["Error: " ++ e.message],
                         loading := false }
            { state := stF, calls := [call] }
        | .ok res =>
            let st3 := { st2 with logs := st2.logs ++ ["Matching encrypted index..."] }
            let stF := { st3 with
                         results := res.dataResults.getD [],
                         meta := res.meta,
                         logs := st3.logs ++ ["External search complete ✔"],
                         loading := false }
            { state := stF, calls := [call] }
    else
      { state := { st0 with loading := false }, calls := [] }

/-- JSON serialization of one string-valued object field, `"k":"v"`. -/
def serializeField (kv : String × String) : String :=
  "\"" ++ kv.1 ++ "\":\"" ++ kv.2 ++ "\""

/-- JSON serialization of the fields of an object, comma separated. -/
def serializeFields : List (String × String) → String
  | [] => ""
  | [kv] => serializeField kv
  | kv :: rest => serializeField kv ++ "," ++ serializeFields rest

/-- JSON serialization of a string-valued object, as `JSON.stringify`
produces it for a request body (insertion order of the fields). -/
def serializeBody (body : List (String × String)) : String :=
  "\x7b" ++ serializeFields body ++ "\x7d"

/-- One label/value pair shown through the `Info` helper component of the
primary search page (or a labelled box of the variant page). -/
structure InfoItem where
  label : String
  value : String
deriving DecidableEq, Repr

/-- The Match Exists value of the primary page's audit verification panel
(line 202 of `SearchPage.jsx`). -/
def matchExistsValue (m : SearchMeta) : String :=
  if m.total_matches > 0 then "YES ✔" else "NO"

/-- The audit verification panel the primary page renders for the external
role once `meta` is set (lines 190-230 of `SearchPage.jsx`). -/
def externalPanelMain (query : String) (m : SearchMeta) : List InfoItem :=
  [ { label := "Query", value := query },
    { label := "Match Exists", value := matchExistsValue m },
    { label := "Result Set Size", value := toString m.total_matches },
    { label := "Response Padding", value := "Fixed-size protected response" },
    { label := "Execution Time", value := toString m.execution_time_ms ++ " ms" },
    { label := "Data Visibility", value := "Encrypted (Auditor-level access)" } ]

/-- The result records the primary page renders: the decrypted-results panel
exists only when the role is internal (lines 166-187 of `SearchPage.jsx`);
no record is rendered for any other role. -/
def renderedRecordsMain (role : String) (results : List SearchRecord) :
    List SearchRecord :=
  if role = "internal" then results else []

/-- The result records the variant page renders: its results panel is not
guarded by the role, so the whole `results` state is rendered for every
role (lines 364-379 of the variant component). -/
def renderedRecordsVariant (results : List SearchRecord) : List SearchRecord :=
  results

/-- The metrics panel the variant page renders once `meta` is set (lines
394-416 of the variant component), for every role. -/
def metricsPanelVariant (m : SearchMeta) : List InfoItem :=
  [ { label := "Matches", value := toString m.total_matches },
    { label := "Returned", value := toString m.returned_count },
    { label := "Time", value := toString m.execution_time_ms ++ " ms" },
    { label := "Truncated", value := if m.truncated then "Yes" else "No" } ]

/-- Model of the JavaScript `toLowerCase` builtin: character-wise
lowercasing. -/
def toLowerStr (s : String) : String :=
  ⟨s.data.map Char.toLower⟩

/-- Role resolution of `MetricsPage` (line 6 of the unnamed source file):
`role?.toLowerCase() || "internal"`.  A missing role yields the JavaScript
value `undefined` and an empty string is falsy, so both fall back to
`"internal"`. -/
def resolvedRole (role : Option String) : String :=
  match role with
  | none => "internal"
  | some r => if toLowerStr r = "" then "internal" else toLowerStr r

/-- The URL `fetchMetrics` requests (lines 15-32 of the unnamed source
file). -/
def metricsUrl (role : Option String) : String :=
  if resolvedRole role = "internal" then "/api/metrics/internal/"
  else "/api/metrics/external/"

/-- Whether `MetricsPage` renders the restricted external view (line 63 of
the unnamed source file): exactly when the resolved role is not internal. -/
def metricsExternalViewShown (role : Option String) : Bool :=
  resolvedRole role != "internal"

/-- Splitting a leading occurrence along a concatenation: either it lies
inside the first part, or it covers the whole first part and continues with
a leading occurrence in the second part. -/
theorem pre_append_split {α : Type} {q a b : List α} (h : q <+: a ++ b) :
    q <+: a ∨ ∃ r, q = a ++ r ∧ r <+: b := by
  rcases List.prefix_or_prefix_of_prefix h ( List.prefix_append a b) with h1 | h1
  · exact Or.inl h1
  · obtain ⟨r, hr⟩ := h1
    subst hr
    obtain ⟨t, ht⟩ := h
    rw [List.append_assoc] at ht
    exact Or.inr ⟨r, rfl, ⟨t, List.append_cancel_left ht⟩⟩

/-- Splitting an occurrence inside a concatenation: it lies in the first
part, lies in the second part, or straddles the boundary, decomposing into a
nonempty tail segment of the first part followed by a nonempty leading
segment of the second part. -/
theorem mid_append_split {α : Type} {q a b : List α} (h : q <:+: a ++ b) :
    q <:+: a ∨ q <:+: b ∨
      ∃ q₁ q₂, q = q₁ ++ q₂ ∧ q₁ ≠ [] ∧ q₂ ≠ [] ∧ q₁ <:+ a ∧ q₂ <+: b := by
  induction a with
  | nil =>
      rw [List.nil_append] at h
      exact Or.inr (Or.inl h)
  | cons x a ih =>
      rw [List.cons_append] at h
      rcases List.infix_cons_iff.mp h with hpre | hmid
      · cases q with
        | nil => exact Or.inl List.nil_infix
        | cons y q' =>
            rcases List.cons_prefix_cons.mp hpre with ⟨rfl, hq'⟩
            rcases pre_append_split hq' with h1 | ⟨r, rfl, hr⟩
            · exact Or.inl ( List.IsPrefix.isInfix ( List.cons_prefix_cons.mpr ⟨rfl, h1⟩))
            · cases r with
              | nil =>
                  rw [List.append_nil]
                  exact Or.inl List.infix_rfl
              | cons z r' =>
                  exact Or.inr (Or.inr ⟨y :: a, z :: r', by simp, by simp, by simp,
                    List.suffix_rfl, hr⟩)
      · rcases ih hmid with h1 | h1 | ⟨q₁, q₂, hq, hne1, hne2, hsuf, hpre2⟩
        · exact Or.inl ( List.infix_cons h1)
        · exact Or.inr (Or.inl h1)
        · exact Or.inr (Or.inr ⟨q₁, q₂, hq, hne1, hne2,
            hsuf.trans ( List.suffix_cons x a), hpre2⟩)

/-- A straddling occurrence contains both boundary elements, so an
occurrence avoiding an element present at the boundary lies wholly inside
one of the two parts. -/
theorem mid_append_elim {α : Type} {q a b : List α} {c : α}
    (hc : c ∉ q) (h : q <:+: a ++ b)
    (hbound : a.getLast? = some c ∨ b.head? = some c) :
    q <:+: a ∨ q <:+: b := by
  rcases mid_append_split h with h1 | h1 | ⟨q₁, q₂, rfl, hne1, hne2, hsuf, hpre⟩
  · exact Or.inl h1
  · exact Or.inr h1
  · exfalso
    rcases hbound with hb | hb
    · obtain ⟨u, rfl⟩ := hsuf
      rcases List.eq_nil_or_concat q₁ with rfl | ⟨L, z, rfl⟩
      · exact hne1 rfl
      · rw [List.concat_eq_append, ← List.append_assoc, List.getLast?_concat] at hb
        obtain rfl : z = c := by injection hb
        exact hc (by simp)
    · cases q₂ with
      | nil => exact hne2 rfl
      | cons w q₂' =>
          obtain ⟨t, rfl⟩ := hpre
          rw [List.cons_append, List.head?_cons] at hb
          obtain rfl : w = c := by injection hb
          exact hc (by simp)

/-- The fixed fragments of the serialized external request body: the JSON
punctuation and the three field names.  Every character of the serialized
body lies in one of these fragments or in one of the three field values. -/
def jsonFixedFragments : List String :=
  ["\x7b", "\"", "auditor_id", "\":\"", ",", "keyword_hash", "signature", "\x7d"]

/-- A quote-free string that occurs in no fixed fragment and in none of the
three transmitted field values does not occur in the serialized external
request body at all. -/
theorem serialize_external_no_query (aid hsh sig : String) (q : List Char)
    (hq : '"' ∉ q)
    (hfrag : ∀ f ∈ jsonFixedFragments, ¬ q <:+: f.data)
    (ha : ¬ q <:+: aid.data) (hh : ¬ q <:+: hsh.data) (hs : ¬ q <:+: sig.data) :
    ¬ q <:+: (serializeBody
      [("auditor_id", aid), ("keyword_hash", hsh), ("signature", sig)]).data := by
  intro hmem
  simp only [serializeBody, serializeFields, serializeField, String.data_append,
    List.append_assoc] at hmem
  rcases mid_append_elim hq hmem (Or.inr rfl) with hbad | hmem
  · exact hfrag "\x7b" (by simp [jsonFixedFragments]) hbad
  rcases mid_append_elim hq hmem (Or.inl rfl) with hbad | hmem
  · exact hfrag "\"" (by simp [jsonFixedFragments]) hbad
  rcases mid_append_elim hq hmem (Or.inr rfl) with hbad | hmem
  · exact hfrag "auditor_id" (by simp [jsonFixedFragments]) hbad
  rcases mid_append_elim hq hmem (Or.inl rfl) with hbad | hmem
  · exact hfrag "\":\"" (by simp [jsonFixedFragments]) hbad
  rcases mid_append_elim hq hmem (Or.inr rfl) with hbad | hmem
  · exact ha hbad
  rcases mid_append_elim hq hmem (Or.inl rfl) with hbad | hmem
  · exact hfrag "\"" (by simp [jsonFixedFragments]) hbad
  rcases mid_append_elim hq hmem (Or.inr rfl) with hbad | hmem
  · exact hfrag "," (by simp [jsonFixedFragments]) hbad
  rcases mid_append_elim hq hmem (Or.inl rfl) with hbad | hmem
  · exact hfrag "\"" (by simp [jsonFixedFragments]) hbad
  rcases mid_append_elim hq hmem (Or.inr rfl) with hbad | hmem
  · exact hfrag "keyword_hash" (by simp [jsonFixedFragments]) hbad
  rcases mid_append_elim hq hmem (Or.inl rfl) with hbad | hmem
  · exact hfrag "\":\"" (by simp [jsonFixedFragments]) hbad
  rcases mid_append_elim hq hmem (Or.inr rfl) with hbad | hmem
  · exact hh hbad
  rcases mid_append_elim hq hmem (Or.inl rfl) with hbad | hmem
  · exact hfrag "\"" (by simp [jsonFixedFragments]) hbad
  rcases mid_append_elim hq hmem (Or.inr rfl) with hbad | hmem
  · exact hfrag "," (by simp [jsonFixedFragments]) hbad
  rcases mid_append_elim hq hmem (Or.inl rfl) with hbad | hmem
  · exact hfrag "\"" (by simp [jsonFixedFragments]) hbad
  rcases mid_append_elim hq hmem (Or.inr rfl) with hbad | hmem
  · exact hfrag "signature" (by simp [jsonFixedFragments]) hbad
  rcases mid_append_elim hq hmem (Or.inl rfl) with hbad | hmem
  · exact hfrag "\":\"" (by simp [jsonFixedFragments]) hbad
  rcases mid_append_elim hq hmem (Or.inr rfl) with hbad | hmem
  · exact hs hbad
  rcases mid_append_elim hq hmem (Or.inl rfl) with hbad | hbad
  · exact hfrag "\"" (by simp [jsonFixedFragments]) hbad
  · exact hfrag "\x7d" (by simp [jsonFixedFragments]) hbad

/-- C1 (counterexample): with the query string `auditor_id`, an external
search of the primary page reaches the network stage and posts a body whose
serialization does contain the raw (un-hashed) query value as a substring
(it coincides with a field name of the JSON skeleton), refuting the claim
that the serialized body never contains the raw query value. -/
theorem c1_counterexample :
    let r := handleSearchMain "external" (some ⟨"A1", "Alice", 1⟩) (some "PRIVKEY")
      "pan" "auditor_id" initialSearchState
      ⟨.ok "9f86d081", .ok "1a2b3c", .ok ⟨some [], some ⟨1, 1, 5, true⟩⟩⟩
    r.calls.map ApiCall.url = ["/api/search/external/"] ∧
    ∃ call ∈ r.calls, "auditor_id".data <:+: (serializeBody call.body).data := by
  decide

/-- C1 (amended): every request the primary page posts during an
external-role search goes to `/api/search/external/` and its body holds
exactly the three fields `auditor_id`, `keyword_hash` and `signature`; the
raw query value can occur in the serialized body only by occurring inside a
fixed fragment of the JSON skeleton, inside one of the three transmitted
field values, or by containing a quote character. -/
theorem c1_external_body_exact_fields (role : String) (aud : Auditor)
    (key field query : String) (st : SearchState) (env : Env) (call : ApiCall)
    (hrole : role = "external")
    (hc : call ∈ (handleSearchMain role (some aud) (some key) field query st env).calls) :
    call.url = "/api/search/external/" ∧
    call.body.map Prod.fst = ["auditor_id", "keyword_hash", "signature"] ∧
    (('"' ∉ query.data) →
     (∀ f ∈ jsonFixedFragments, ¬ query.data <:+: f.data) →
     (∀ kv ∈ call.body, ¬ query.data <:+: kv.2.data) →
     ¬ query.data <:+: (serializeBody call.body).data) := by
  subst hrole
  by_cases hq0 : query = ""
  · rw [hq0] at hc
    simp [handleSearchMain] at hc
  · obtain ⟨hres, sres, pres⟩ := env
    rcases hres with e | kh
    · simp [handleSearchMain, hq0] at hc
    rcases sres with e | sg
    · simp [handleSearchMain, hq0] at hc
    have hcall : call = ⟨"/api/search/external/", externalPayload aud kh sg⟩ := by
      rcases pres with e | res <;> simpa [handleSearchMain, hq0] using hc
    subst hcall
    refine ⟨rfl, by simp [externalPayload], ?_⟩
    intro hq hfrag hvals
    have ha := hvals ("auditor_id", aud.auditor_id) (by simp [externalPayload])
    have hh := hvals ("keyword_hash", kh) (by simp [externalPayload])
    have hs := hvals ("signature", sg) (by simp [externalPayload])
    exact serialize_external_no_query aud.auditor_id kh sg query.data hq hfrag ha hh hs

/-- C1 (witness): a concrete external search whose query is `alice`, where
the amended theorem yields that the serialized posted body does not contain
the raw query. -/
theorem c1_external_body_exact_fields_witness :
    ¬ ("alice".data <:+:
      (serializeBody (externalPayload ⟨"A1", "Alice", 1⟩ "9f86d081" "1a2b")).data) := by
  have h := c1_external_body_exact_fields "external" ⟨"A1", "Alice", 1⟩ "PRIVKEY"
    "pan" "alice" initialSearchState
    ⟨.ok "9f86d081", .ok "1a2b", .ok ⟨some [], some ⟨1, 1, 5, true⟩⟩⟩
    ⟨"/api/search/external/", externalPayload ⟨"A1", "Alice", 1⟩ "9f86d081" "1a2b"⟩
    rfl (by decide)
  exact h.2.2 (by decide) (by decide) (by decide)

/-- C2: initiating an external search (nonempty query) with no private key
present transitions directly to the key-missing failure in both search
pages: the only appended log line is the distinct key-missing message, no
network call is issued, and loading is released. -/
theorem c2_missing_key_fails_fast (aud : Option Auditor) (field query : String)
    (st st' : SearchState) (env : Env) (hq : query ≠ "") :
    handleSearchMain "external" aud none field query st env =
      { state := { results := [], meta := none,
                   logs := ["Preparing search...", "No auditor private key found"],
                   loading := false },
        calls := [] } ∧
    handleSearchVariant "external" none query st' env =
      { state := { results := [], meta := none,
                   logs := ["Preparing search...", "No auditor key found"],
                   loading := false },
        calls := [] } := by
  constructor
  · unfold handleSearchMain
    rw [if_neg hq]
    rfl
  · unfold handleSearchVariant
    rw [if_neg hq]
    rfl

/-- C2 (witness): a concrete external search without a private key. -/
theorem c2_missing_key_fails_fast_witness :
    handleSearchMain "external" (some ⟨"A1", "Alice", 1⟩) none "pan" "alice"
      initialSearchState ⟨.ok "h", .ok "s", .ok ⟨some [], none⟩⟩ =
      { state := { results := [], meta := none,
                   logs := ["Preparing search...", "No auditor private key found"],
                   loading := false },
        calls := [] } :=
  (c2_missing_key_fails_fast (some ⟨"A1", "Alice", 1⟩) "pan" "alice"
    initialSearchState initialSearchState ⟨.ok "h", .ok "s", .ok ⟨some [], none⟩⟩
    (by decide)).1

/-- C3 (counterexample): with both the auditor identity and the private key
absent, the primary page reports the key-missing message, not the
auditor-identity one, refuting the claim that a missing auditor identity is
reported whether or not a private key is also present. -/
theorem c3_counterexample :
    let r := handleSearchMain "external" none none "pan" "alice" initialSearchState
      ⟨.ok "h", .ok "s", .ok ⟨some [], some ⟨1, 1, 5, true⟩⟩⟩
    r.state.logs = ["Preparing search...", "No auditor private key found"] ∧
    ¬ ("No auditor identity found" ∈ r.state.logs) ∧
    r.calls = [] := by
  decide

/-- C3 (amended): when a private key is present but no auditor identity is,
initiating an external search (nonempty query) transitions directly to the
distinct auditor-identity-missing failure and issues zero network calls;
when the key is also absent the key-missing failure is reported instead. -/
theorem c3_missing_auditor_fails_fast (key field query : String)
    (st : SearchState) (env : Env) (hq : query ≠ "") :
    handleSearchMain "external" none (some key) field query st env =
      { state := { results := [], meta := none,
                   logs := ["Preparing search...", "No auditor identity found"],
                   loading := false },
        calls := [] } := by
  unfold handleSearchMain
  rw [if_neg hq]
  rfl

/-- C3 (witness): a concrete external search with a key but no identity. -/
theorem c3_missing_auditor_fails_fast_witness :
    handleSearchMain "external" none (some "PRIVKEY") "pan" "alice"
      initialSearchState ⟨.ok "h", .ok "s", .ok ⟨some [], none⟩⟩ =
      { state := { results := [], meta := none,
                   logs := ["Preparing search...", "No auditor identity found"],
                   loading := false },
        calls := [] } :=
  c3_missing_auditor_fails_fast "PRIVKEY" "pan" "alice" initialSearchState
    ⟨.ok "h", .ok "s", .ok ⟨some [], none⟩⟩ (by decide)

/-- C8: a failure at the hashing, signing or network stage of an external
search moves the flow directly to the failed state: the session log ends
with the label of the failing stage followed by the single error line, no
later stage label or call occurs, and loading is released.  The network
call list is empty unless the network stage itself was reached. -/
theorem c8_stage_failure_reported (aud : Auditor) (key field query : String)
    (st : SearchState) (e : JsError) (hq : query ≠ "") :
    (∀ sres pres, handleSearchMain "external" (some aud) (some key) field query st
        ⟨.error e, sres, pres⟩ =
      { state := { results := [], meta := none,
                   logs := ["Preparing search...", "Normalizing keyword...",
                            "Hashing keyword (SHA256)...", errorLog e],
                   loading := false },
        calls := [] }) ∧
    (∀ kh pres, handleSearchMain "external" (some aud) (some key) field query st
        ⟨.ok kh, .error e, pres⟩ =
      { state := { results := [], meta := none,
                   logs := ["Preparing search...", "Normalizing keyword...",
                            "Hashing keyword (SHA256)...",
                            "Signing hash with RSA private key...", errorLog e],
                   loading := false },
        calls := [] }) ∧
    (∀ kh sg, handleSearchMain "external" (some aud) (some key) field query st
        ⟨.ok kh, .ok sg, .error e⟩ =
      { state := { results := [], meta := none,
                   logs := ["Preparing search...", "Normalizing keyword...",
                            "Hashing keyword (SHA256)...",
                            "Signing hash with RSA private key...",
                            "Sending request to /api/search/external/", errorLog e],
                   loading := false },
        calls := [⟨"/api/search/external/", externalPayload aud kh sg⟩] }) := by
  refine ⟨fun sres pres => ?_, fun kh pres => ?_, fun kh sg => ?_⟩ <;>
    (unfold handleSearchMain; rw [if_neg hq]; rfl)

/-- C8 (witness): a concrete signing-stage failure with a structured error
code. -/
theorem c8_stage_failure_reported_witness :
    handleSearchMain "external" (some ⟨"A1", "Alice", 1⟩) (some "PRIVKEY") "pan"
      "alice" initialSearchState
      ⟨.ok "9f86d081", .error ⟨"boom", some ⟨some "SIGNING_ERROR"⟩⟩, .ok ⟨some [], none⟩⟩ =
      { state := { results := [], meta := none,
                   logs := ["Preparing search...", "Normalizing keyword...",
                            "Hashing keyword (SHA256)...",
                            "Signing hash with RSA private key...",
                            "Error: SIGNING_ERROR"],
                   loading := false },
        calls := [] } :=
  (c8_stage_failure_reported ⟨"A1", "Alice", 1⟩ "PRIVKEY" "pan" "alice"
    initialSearchState ⟨"boom", some ⟨some "SIGNING_ERROR"⟩⟩ (by decide)).2.1
    "9f86d081" (.ok ⟨some [], none⟩)

/-- C9: for every role, invoking `handleSearch` with the empty query is a
no-op in both search pages: the component state is returned unchanged and
no network call is issued. -/
theorem c9_empty_query_noop (role : String) (aud : Option Auditor)
    (key : Option String) (field : String) (st : SearchState) (env : Env) :
    handleSearchMain role aud key field "" st env = { state := st, calls := [] } ∧
    handleSearchVariant role key "" st env = { state := st, calls := [] } :=
  ⟨rfl, rfl⟩

/-- C4 (counterexample): the variant search page renders its results panel
for every role, so an external search whose response carries a record (here
even with `total_matches = 0`) does render that record, refuting the claim
that no result records are rendered for the external role regardless of the
`results` array contents. -/
theorem c4_counterexample :
    let r := handleSearchVariant "external" (some "PRIVKEY") "alice" initialSearchState
      ⟨.ok "h", .ok "s", .ok ⟨some ["record-1"], some ⟨0, 1, 5, true⟩⟩⟩
    renderedRecordsVariant r.state.results = ["record-1"] ∧
    renderedRecordsVariant r.state.results ≠ [] := by
  decide

/-- C4 (amended): in the primary search page the Match Exists indicator of
the external panel shows the YES marker exactly when `total_matches` is
positive and shows NO exactly when it is zero, and the primary page renders
no result records for the external role whatever the `results` array holds;
the variant page, by contrast, renders the whole `results` array for every
role. -/
theorem c4_match_indicator_and_records (q : String) (m : SearchMeta)
    (results : List SearchRecord) :
    (matchExistsValue m = "YES ✔" ↔ 0 < m.total_matches) ∧
    (matchExistsValue m = "NO" ↔ m.total_matches = 0) ∧
    { label := "Match Exists", value := matchExistsValue m } ∈ externalPanelMain q m ∧
    renderedRecordsMain "external" results = [] ∧
    renderedRecordsVariant results = results := by
  refine ⟨?_, ?_, by simp [externalPanelMain], rfl, rfl⟩
  · by_cases h : 0 < m.total_matches <;> simp [matchExistsValue, h]
  · by_cases h : m.total_matches = 0 <;>
      simp [matchExistsValue, h, Nat.pos_of_ne_zero]

/-- C5 (counterexample): the raw keyword may coincide with one of the fixed
log strings; searching for the string `Preparing search...` makes the first
appended log line contain (equal) the raw keyword, refuting the claim that
no appended log line ever contains the raw keyword. -/
theorem c5_counterexample :
    let q := "Preparing search..."
    let r := handleSearchMain "external" (some ⟨"A1", "Alice", 1⟩) (some "PRIVKEY")
      "pan" q initialSearchState ⟨.ok "h", .ok "s", .ok ⟨some [], some ⟨1, 1, 5, true⟩⟩⟩
    ∃ line ∈ r.state.logs, q.data <:+: line.data := by
  decide

/-- C5 (amended): the session log never depends on the raw keyword or on
the private key value: two runs of either search page that differ only in
their (nonempty) queries, their (present) private keys and their starting
states produce identical logs, so neither secret is ever interpolated into
a log line, on success or failure paths alike. -/
theorem c5_logs_independent_of_secrets (role field : String) (aud : Option Auditor)
    (q1 q2 k1 k2 : String) (st1 st2 : SearchState) (env : Env)
    (h1 : q1 ≠ "") (h2 : q2 ≠ "") :
    (handleSearchMain role aud (some k1) field q1 st1 env).state.logs =
      (handleSearchMain role aud (some k2) field q2 st2 env).state.logs ∧
    (handleSearchVariant role (some k1) q1 st1 env).state.logs =
      (handleSearchVariant role (some k2) q2 st2 env).state.logs := by
  obtain ⟨hres, sres, pres⟩ := env
  constructor
  · unfold handleSearchMain
    simp only [if_neg h1, if_neg h2]
    by_cases hr : role = "internal"
    · subst hr
      rcases pres with e | res <;> rfl
    · by_cases hr2 : role = "external"
      · subst hr2
        cases aud with
        | none => rfl
        | some a =>
            rcases hres with e | kh
            · rfl
            · rcases sres with e | sg
              · rfl
              · rcases pres with e | res <;> rfl
      · simp only [if_neg hr, if_neg hr2]
  · unfold handleSearchVariant
    simp only [if_neg h1, if_neg h2]
    by_cases hr : role = "internal"
    · subst hr
      rcases pres with e | res <;> rfl
    · by_cases hr2 : role = "external"
      · subst hr2
        rcases pres with e | res <;> rfl
      · simp only [if_neg hr, if_neg hr2]

/-- C5 (witness): two concrete external runs with different keywords and
keys produce the same log. -/
theorem c5_logs_independent_of_secrets_witness :
    (handleSearchMain "external" (some ⟨"A1", "Alice", 1⟩) (some "KEY-ONE") "pan"
        "alice" initialSearchState ⟨.ok "h", .ok "s", .ok ⟨some [], none⟩⟩).state.logs =
      (handleSearchMain "external" (some ⟨"A1", "Alice", 1⟩) (some "KEY-TWO") "pan"
        "bob" initialSearchState ⟨.ok "h", .ok "s", .ok ⟨some [], none⟩⟩).state.logs :=
  (c5_logs_independent_of_secrets "external" "pan" (some ⟨"A1", "Alice", 1⟩)
    "alice" "bob" "KEY-ONE" "KEY-TWO" initialSearchState initialSearchState
    ⟨.ok "h", .ok "s", .ok ⟨some [], none⟩⟩ (by decide) (by decide)).1

/-- C6 (counterexample): with `total_matches = 3` the external panel of the
primary page renders the item `Result Set Size` whose value is the numeral
of `meta.total_matches`, refuting the claim that the raw result count is
not rendered in the external-role view. -/
theorem c6_counterexample :
    let m : SearchMeta := ⟨3, 3, 5, true⟩
    { label := "Result Set Size", value := toString m.total_matches } ∈
      externalPanelMain "alice" m ∧ m.total_matches = 3 := by
  decide

/-- C6 (amended): the external-role views do render the raw result count:
the primary page's audit panel shows `meta.total_matches` as Result Set
Size (next to the fixed Response Padding text), and the variant page's
metrics panel shows it as Matches. -/
theorem c6_result_count_rendered (q : String) (m : SearchMeta) :
    { label := "Result Set Size", value := toString m.total_matches } ∈
      externalPanelMain q m ∧
    { label := "Matches", value := toString m.total_matches } ∈
      metricsPanelVariant m ∧
    { label := "Response Padding", value := "Fixed-size protected response" } ∈
      externalPanelMain q m :=
  ⟨by simp [externalPanelMain], by simp [metricsPanelVariant],
    by simp [externalPanelMain]⟩

/-- C7 (counterexample): the variant search page logs every failure as
`Error:` followed by the thrown error's message; a failure that does carry a
structured `{error: {code}}` body is therefore not reported by its code,
refuting the claim for that page. -/
theorem c7_counterexample :
    let e : JsError := ⟨"Request failed with status code 400",
      some ⟨some "INVALID_SIGNATURE"⟩⟩
    let r := handleSearchVariant "external" (some "PRIVKEY") "alice"
      initialSearchState ⟨.ok "h", .ok "s", .error e⟩
    r.state.logs.getLast? = some "Error: Request failed with status code 400" ∧
    ¬ ("Error: INVALID_SIGNATURE" ∈ r.state.logs) := by
  decide

/-- C7 (amended): in the primary search page a failed search carrying a
structured service error `{error: {code}}` appends a log line holding only
the error code, and a failure without a structured error body appends the
generic line `Unknown error occurred`, for the internal and the external
flow alike; the variant page instead appends `Error:` followed by the
thrown error's message for every failure. -/
theorem c7_error_reporting (aud : Auditor) (key field q kh sg : String)
    (st : SearchState) (e : JsError) (hq : q ≠ "") :
    (∀ c, e.responseError = some ⟨some c⟩ →
      (handleSearchMain "external" (some aud) (some key) field q st
          ⟨.ok kh, .ok sg, .error e⟩).state.logs.getLast? = some ("Error: " ++ c) ∧
      (handleSearchMain "internal" (some aud) (some key) field q st
          ⟨.ok kh, .ok sg, .error e⟩).state.logs.getLast? = some ("Error: " ++ c)) ∧
    (e.responseError = none →
      (handleSearchMain "external" (some aud) (some key) field q st
          ⟨.ok kh, .ok sg, .error e⟩).state.logs.getLast? =
        some "Unknown error occurred" ∧
      (handleSearchMain "internal" (some aud) (some key) field q st
          ⟨.ok kh, .ok sg, .error e⟩).state.logs.getLast? =
        some "Unknown error occurred") ∧
    (handleSearchVariant "external" (some key) q st
        ⟨.ok kh, .ok sg, .error e⟩).state.logs.getLast? =
      some ("Error: " ++ e.message) := by
  refine ⟨fun c hc => ?_, fun hc => ?_, ?_⟩
  · constructor <;> simp [handleSearchMain, hq, errorLog, hc]
  · constructor <;> simp [handleSearchMain, hq, errorLog, hc]
  · unfold handleSearchVariant
    rw [if_neg hq]
    rfl

/-- C7 (witness): a concrete failure with the structured code
`BAD_SIGNATURE` is logged by code only in the primary page. -/
theorem c7_error_reporting_witness :
    (handleSearchMain "external" (some ⟨"A1", "Alice", 1⟩) (some "PRIVKEY") "pan"
        "alice" initialSearchState
        ⟨.ok "h", .ok "s",
          .error ⟨"Request failed", some ⟨some "BAD_SIGNATURE"⟩⟩⟩).state.logs.getLast? =
      some "Error: BAD_SIGNATURE" :=
  ((c7_error_reporting ⟨"A1", "Alice", 1⟩ "PRIVKEY" "pan" "alice" "h" "s"
    initialSearchState ⟨"Request failed", some ⟨some "BAD_SIGNATURE"⟩⟩
    (by decide)).1 "BAD_SIGNATURE" rfl).1

/-- C10 (counterexample): an empty-string role is neither null nor
undefined and its lowercase form is not `internal`, yet `MetricsPage`
resolves it to internal, fetches the internal metrics endpoint and does not
render the restricted external view, refuting the claim that every role
value other than null/undefined/`internal` yields the external endpoint. -/
theorem c10_counterexample :
    resolvedRole (some "") = "internal" ∧
    metricsUrl (some "") = "/api/metrics/internal/" ∧
    metricsExternalViewShown (some "") = false ∧
    toLowerStr "" ≠ "internal" := by
  decide

/-- C10 (amended): `MetricsPage` role resolution defaults to internal and is
case-insensitive: a missing role, a role whose lowercase form is empty, or
one whose lowercase form equals `internal` fetches the internal metrics
endpoint; every other role value fetches the external endpoint and renders
the restricted external view. -/
theorem c10_role_resolution (r : String) :
    metricsUrl none = "/api/metrics/internal/" ∧
    (toLowerStr r = "" ∨ toLowerStr r = "internal" →
      metricsUrl (some r) = "/api/metrics/internal/" ∧
      metricsExternalViewShown (some r) = false) ∧
    (¬ (toLowerStr r = "" ∨ toLowerStr r = "internal") →
      metricsUrl (some r) = "/api/metrics/external/" ∧
      metricsExternalViewShown (some r) = true) := by
  refine ⟨rfl, ?_, ?_⟩
  · rintro (h | h) <;>
      simp [metricsUrl, resolvedRole, metricsExternalViewShown, h]
  · intro h
    push_neg at h
    obtain ⟨h1, h2⟩ := h
    simp [metricsUrl, resolvedRole, metricsExternalViewShown, h1, h2]

/-- C10 (witness): the uppercase role `INTERNAL` resolves to the internal
endpoint and the role `auditor` to the external one. -/
theorem c10_role_resolution_witness :
    metricsUrl (some "INTERNAL") = "/api/metrics/internal/" ∧
    metricsUrl (some "auditor") = "/api/metrics/external/" :=
  ⟨((c10_role_resolution "INTERNAL").2.1 (Or.inr (by decide))).1,
   ((c10_role_resolution "auditor").2.2 (by decide)).1⟩
